import Mathlib

/-!
# Verification of the Credential & Usage Resolution Engine

Shallow embedding of the requests-counter worker's usage-resolution
subsystem, with proofs about:

* the Usage Report Builder (`buildDataFromGitHub`'s pure derivation),
* the Usage Cache (`loadCachedData` / `saveDataCache`),
* the Resolution Orchestrator (`loadData`),
* the Token Lifecycle Manager (`getValidGitHubAccessTokenForUser`).

JavaScript numbers are modelled as exact rationals (`ℚ`); timestamps as
integers (`ℤ`, milliseconds).  Network and database effects are modelled by
passing their outcomes as explicit arguments and by returning the performed
effects in a trace structure.
-/

attribute [local semireducible] Rat.mul Rat.add Rat.sub Rat.inv

namespace RequestsCounter

/-! ## Usage Report Builder (github.ts, `buildDataFromGitHub`) -/

/-- The report value object (`DataPayload` in schemas.ts). -/
structure DataPayload where
  dailyTarget : ℚ
  daysRemaining : ℚ
  display : String
  monthRemaining : ℚ
  title : String
  todayAvailable : ℚ
  updatedAt : String
  deriving DecidableEq, Repr

/-- JavaScript `Math.round`: round half toward positive infinity. -/
def jsRound (q : ℚ) : ℤ := (q + 1/2).floor

/-- `jsRound` agrees with the mathematical floor of `q + 1/2`. -/
theorem jsRound_eq_floor (q : ℚ) : jsRound q = ⌊q + 1/2⌋ := by
  rw [jsRound, Rat.floor_def', ← Rat.floor_def]

/-- `roundRequests(value) = Math.round(value * 100) / 100`. -/
def roundRequests (q : ℚ) : ℚ := (jsRound (q * 100) : ℚ) / 100

/-- Insert a thousands separator after every third digit, counting from the
right.  The input list is the digit string reversed. -/
def groupRevAux : ℕ → List Char → List Char
  | _, [] => []
  | k, c :: rest =>
    let tail := groupRevAux (k + 1) rest
    if k % 3 == 2 && !rest.isEmpty then c :: ',' :: tail else c :: tail

/-- `en-US` digit grouping as produced by `Intl.NumberFormat`. -/
def groupDigits (s : String) : String :=
  String.mk ((groupRevAux 0 s.toList.reverse).reverse)

/-- `Intl.NumberFormat('en-US', { maximumFractionDigits: 2 }).format` on a
value that is already an exact multiple of 1/100 (the only call sites feed it
`roundRequests` outputs): decimal rendering with `en-US` grouping, dropping
trailing fractional zeros. -/
def formatRequests (q : ℚ) : String :=
  let m : ℤ := jsRound (q * 100)
  let a : ℕ := m.natAbs
  let ip : ℕ := a / 100
  let fp : ℕ := a % 100
  let ipStr := groupDigits (toString ip)
  let fracStr :=
    if fp == 0 then ""
    else if fp % 10 == 0 then "." ++ toString (fp / 10)
    else if fp < 10 then ".0" ++ toString fp
    else "." ++ toString fp
  let signStr := if m < 0 then "-" else ""
  signStr ++ ipStr ++ fracStr

/-- `formatDisplay(todayAvailable, dailyTarget)` from github.ts. -/
def formatDisplay (todayAvailable dailyTarget : ℚ) : String :=
  formatRequests todayAvailable ++ "/" ++ formatRequests dailyTarget

/-- `spentBeforeToday = Math.max(0, spentThisMonth - spentToday)`. -/
def spentBeforeToday (spentThisMonth spentToday : ℚ) : ℚ :=
  max 0 (spentThisMonth - spentToday)

/-- `monthRemainingBeforeToday = Math.max(0, monthlyQuota - spentBeforeToday)`. -/
def monthRemainingBeforeToday (monthlyQuota spentThisMonth spentToday : ℚ) : ℚ :=
  max 0 (monthlyQuota - spentBeforeToday spentThisMonth spentToday)

/-- Pre-rounding `dailyTarget = monthRemainingBeforeToday / daysRemaining`. -/
def dailyTarget (monthlyQuota spentThisMonth spentToday : ℚ) (daysRemaining : ℕ) : ℚ :=
  monthRemainingBeforeToday monthlyQuota spentThisMonth spentToday / (daysRemaining : ℚ)

/-- Pre-rounding `todayAvailable = dailyTarget - spentToday` (unclamped). -/
def todayAvailable (monthlyQuota spentThisMonth spentToday : ℚ) (daysRemaining : ℕ) : ℚ :=
  dailyTarget monthlyQuota spentThisMonth spentToday daysRemaining - spentToday

/-- `calculateMonthRemaining(todayAvailable, dailyTarget, daysRemaining)`. -/
def calculateMonthRemaining (todayAvailable dailyTarget : ℚ) (daysRemaining : ℕ) : ℚ :=
  roundRequests (todayAvailable + dailyTarget * ((daysRemaining : ℚ) - 1))

/-- The pure derivation tail of `buildDataFromGitHub` (lines 275-300 of
github.ts), as a function of the extracted usage totals, the computed
`daysRemaining`, and the pass-through `title`/`updatedAt`. -/
def computeReport (monthlyQuota spentThisMonth spentToday : ℚ) (daysRemaining : ℕ)
    (title updatedAt : String) : DataPayload :=
  let roundedTodayAvailable :=
    roundRequests (todayAvailable monthlyQuota spentThisMonth spentToday daysRemaining)
  let roundedDailyTarget :=
    roundRequests (dailyTarget monthlyQuota spentThisMonth spentToday daysRemaining)
  { dailyTarget := roundedDailyTarget
    daysRemaining := (daysRemaining : ℚ)
    display := formatDisplay roundedTodayAvailable roundedDailyTarget
    monthRemaining := calculateMonthRemaining roundedTodayAvailable roundedDailyTarget daysRemaining
    title := title
    todayAvailable := roundedTodayAvailable
    updatedAt := updatedAt }

/-- The spec's formula for the pre-rounding daily target, written exactly as
in the specification text (for comparison with the source-derived
`dailyTarget`). -/
def specDailyTarget (monthlyQuota spentThisMonth spentToday : ℚ) (daysRemaining : ℕ) : ℚ :=
  max 0 (monthlyQuota - max 0 (spentThisMonth - spentToday)) / (daysRemaining : ℚ)

example : (computeReport 300 250 10 5 "t" "u").dailyTarget = 12 := by decide
example : (computeReport 300 250 10 5 "t" "u").todayAvailable = 2 := by decide
example : (computeReport 300 250 10 5 "t" "u").display = "2/12" := by decide
example : (computeReport 10 100 100 1 "t" "u").todayAvailable = -90 := by decide

/-! ## Payload schema (schemas.ts, `parseDataPayload`) -/

/-- JSON values, as produced by `JSON.parse` on a cache row's text. -/
inductive Json where
  | null
  | bool (b : Bool)
  | num (q : ℚ)
  | str (s : String)
  | arr (elems : List Json)
  | obj (fields : List (String × Json))

/-- JavaScript object property lookup (last binding wins, matching
`JSON.parse` duplicate-key behaviour). -/
def jsonGet (fields : List (String × Json)) (key : String) : Option Json :=
  fields.foldl (fun acc kv => if kv.1 = key then some kv.2 else acc) none

/-- ASCII digit test for the timestamp pattern. -/
def isAsciiDigit (c : Char) : Bool := '0' ≤ c && c ≤ '9'

/-- The valibot regex `^\d{4}-\d{2}-\d{2}T\d{2}:\d{2}:\d{2}\.\d{3}Z$` from
schemas.ts. -/
def isIsoTimestamp (s : String) : Bool :=
  match s.toList with
  | [y1, y2, y3, y4, '-', m1, m2, '-', d1, d2, 'T', h1, h2, ':', n1, n2, ':',
      s1, s2, '.', f1, f2, f3, 'Z'] =>
    [y1, y2, y3, y4, m1, m2, d1, d2, h1, h2, n1, n2, s1, s2, f1, f2, f3].all isAsciiDigit
  | _ => false

/-- `parseDataPayload` (the valibot `dataSchema` of schemas.ts): an object
with numeric `dailyTarget`, `daysRemaining`, `monthRemaining`,
`todayAvailable`, a `display` string of length 1..64, a `title` string of
length 1..120 and an ISO-timestamp `updatedAt`.  Validation failure is the
`none` case (the source throws a `VALIDATION_ERROR` `ApiError`). -/
def parseDataPayload (v : Json) : Option DataPayload :=
  match v with
  | Json.obj fields =>
    match jsonGet fields "dailyTarget", jsonGet fields "daysRemaining",
        jsonGet fields "display", jsonGet fields "monthRemaining",
        jsonGet fields "title", jsonGet fields "todayAvailable",
        jsonGet fields "updatedAt" with
    | some (Json.num dt), some (Json.num dr), some (Json.str disp),
        some (Json.num mr), some (Json.str ti), some (Json.num ta),
        some (Json.str upd) =>
      if 1 ≤ disp.length ∧ disp.length ≤ 64 ∧ 1 ≤ ti.length ∧ ti.length ≤ 120
          ∧ isIsoTimestamp upd = true then
        some { dailyTarget := dt, daysRemaining := dr, display := disp,
               monthRemaining := mr, title := ti, todayAvailable := ta,
               updatedAt := upd }
      else none
    | _, _, _, _, _, _, _ => none
  | _ => none

/-! ## Usage Cache (cache.ts) -/

/-- `CACHE_TTL_MS = 5 * 60 * 1000`. -/
def CACHE_TTL_MS : ℤ := 5 * 60 * 1000

/-- `PAYLOAD_VERSION = 1`. -/
def PAYLOAD_VERSION : ℤ := 1

/-- The stored `payload_json` text, abstracted to its `JSON.parse` outcome:
either text that fails to parse, or the parsed JSON value. -/
inductive StoredText where
  | malformed (raw : String)
  | wellFormed (value : Json)

/-- `JSON.parse` on the stored text (`none` models the thrown exception). -/
def jsonParse : StoredText → Option Json
  | StoredText.malformed _ => none
  | StoredText.wellFormed v => some v

/-- One `usage_cache` row (`UsageCacheRow` in cache.ts). -/
structure CacheRow where
  payloadJson : StoredText
  payloadVersion : ℤ
  updatedAt : ℤ

/-- `CachedData`, the result of a successful cache read. -/
structure CachedData where
  isFresh : Bool
  payload : DataPayload
  updatedAt : ℤ

/-- Result of `loadCachedData`, together with its effect on the stored row:
`value` is the returned `CachedData | null`, `store` is the row remaining
in `usage_cache` after the call (`none` when absent or deleted), and
`deleted` records whether `deleteCache` ran. -/
structure CacheReadResult where
  value : Option CachedData
  store : Option CacheRow
  deleted : Bool

/-- `loadCachedData(db, userId)` at wall-clock time `now`, reading the row
`row?` stored for the user: version/timestamp/parse/validation failures
delete the row and return null; otherwise the payload is returned with
`isFresh = (now - updated_at <= CACHE_TTL_MS)`. -/
def loadCachedData (row? : Option CacheRow) (now : ℤ) : CacheReadResult :=
  match row? with
  | none => ⟨none, none, false⟩
  | some row =>
    if row.payloadVersion ≠ PAYLOAD_VERSION then ⟨none, none, true⟩
    else if ¬ 0 < row.updatedAt then ⟨none, none, true⟩
    else
      match jsonParse row.payloadJson with
      | none => ⟨none, none, true⟩
      | some parsed =>
        match parseDataPayload parsed with
        | none => ⟨none, none, true⟩
        | some payload =>
          ⟨some ⟨decide (now - row.updatedAt ≤ CACHE_TTL_MS), payload, row.updatedAt⟩,
            some row, false⟩

/-- `JSON.stringify` of a `DataPayload` (the object literal field order used
by `buildDataFromGitHub`). -/
def encodeDataPayload (p : DataPayload) : Json :=
  Json.obj
    [("dailyTarget", Json.num p.dailyTarget),
     ("daysRemaining", Json.num p.daysRemaining),
     ("display", Json.str p.display),
     ("monthRemaining", Json.num p.monthRemaining),
     ("title", Json.str p.title),
     ("todayAvailable", Json.num p.todayAvailable),
     ("updatedAt", Json.str p.updatedAt)]

/-- `saveDataCache(db, userId, payload, updatedAt)`: the upserted row. -/
def saveDataCache (payload : DataPayload) (updatedAt : ℤ) : CacheRow :=
  ⟨StoredText.wellFormed (encodeDataPayload payload), PAYLOAD_VERSION, updatedAt⟩

/-! ## Errors (errors.ts) -/

/-- `ApiErrorCode` from errors.ts. -/
inductive ErrorCode where
  | GITHUB_AUTH_FAILED
  | GITHUB_FORBIDDEN
  | GITHUB_NETWORK_ERROR
  | GITHUB_RATE_LIMITED
  | GITHUB_TOKEN_INVALID
  | NOT_FOUND
  | UNAUTHORIZED
  | VALIDATION_ERROR
  deriving DecidableEq, Repr

/-- The data of an `ApiError`. -/
structure ApiErrorData where
  status : ℕ
  code : ErrorCode
  message : String
  deriving DecidableEq, Repr

/-- A thrown JavaScript value: either an `ApiError` or any other error
(`instanceof ApiError` fails on the latter). -/
inductive AppError where
  | api (e : ApiErrorData)
  | other (message : String)
  deriving DecidableEq, Repr

/-! ## Resolution Orchestrator (data-loader.ts, `loadData`) -/

/-- `DataResolutionSource` from data-loader.ts. -/
inductive DataSource where
  | cache_hit
  | github_live
  | github_live_failed
  | cache_stale_fallback
  deriving DecidableEq, Repr

/-- `LoadDataResult` from data-loader.ts. -/
structure LoadDataResult where
  payload : DataPayload
  source : DataSource

/-- `hasValidPatCredentials(input)`: both the PAT ciphertext and IV are
present and non-empty. -/
def hasValidPatCredentials (patCiphertext patIv : Option String) : Bool :=
  (match patCiphertext with | some s => decide (s.length > 0) | none => false)
    && (match patIv with | some s => decide (s.length > 0) | none => false)

/-- `loadData(input)`: `cached` is the `loadCachedData` result, and `live`
is the combined outcome of `decryptPat` + `buildDataFromGitHub` (an
exception from either is the `error` case).  `Except.error` models the
re-thrown failure. -/
def loadData (cached : Option CachedData) (patCiphertext patIv : Option String)
    (live : Except AppError DataPayload) : Except AppError (Option LoadDataResult) :=
  let hasFreshCache := match cached with | some c => c.isFresh | none => false
  if hasFreshCache then
    match cached with
    | some c => Except.ok (some ⟨c.payload, DataSource.cache_hit⟩)
    | none => Except.ok none
  else if ¬ hasValidPatCredentials patCiphertext patIv then
    match cached with
    | some c => Except.ok (some ⟨c.payload, DataSource.cache_stale_fallback⟩)
    | none => Except.ok none
  else
    match live with
    | Except.ok payload => Except.ok (some ⟨payload, DataSource.github_live⟩)
    | Except.error e =>
      match cached with
      | some c => Except.ok (some ⟨c.payload, DataSource.cache_stale_fallback⟩)
      | none => Except.error e

/-! ## Token Lifecycle Manager (github-auth.ts) -/

/-- `ACCESS_TOKEN_EXPIRY_SAFETY_MS = 60_000`. -/
def ACCESS_TOKEN_EXPIRY_SAFETY_MS : ℤ := 60000

/-- `GitHubTokenBundle`: the decrypted per-user token bundle. -/
structure TokenBundle where
  accessToken : Option String
  accessTokenExpiresAt : Option ℤ
  authInvalidAt : Option ℤ
  githubLogin : Option String
  githubUserId : Option String
  refreshToken : Option String
  refreshTokenExpiresAt : Option ℤ
  deriving DecidableEq, Repr

/-- `hasFreshAccessToken(bundle, now)`: a non-empty access token whose
expiry lies more than the 60s safety margin in the future. -/
def hasFreshAccessToken (b : TokenBundle) (now : ℤ) : Bool :=
  let hasAccessToken := match b.accessToken with
    | some t => decide (t.length > 0)
    | none => false
  let hasAccessTokenExpiry := b.accessTokenExpiresAt.isSome
  let expiresAt := b.accessTokenExpiresAt.getD 0
  hasAccessToken && hasAccessTokenExpiry
    && decide (expiresAt > now + ACCESS_TOKEN_EXPIRY_SAFETY_MS)

/-- `isGitHubAuthMarkedInvalid(bundle)`: `authInvalidAt` is a number `> 0`. -/
def isGitHubAuthMarkedInvalid (b : TokenBundle) : Bool :=
  match b.authInvalidAt with
  | some t => decide (t > 0)
  | none => false

/-- `hasRefreshToken(bundle)`: a non-empty refresh token is present. -/
def hasRefreshToken (b : TokenBundle) : Bool :=
  match b.refreshToken with
  | some t => decide (t.length > 0)
  | none => false

/-- `createGitHubTokenInvalidError()`: the `ReauthRequired` failure. -/
def createGitHubTokenInvalidError : ApiErrorData :=
  ⟨400, ErrorCode.GITHUB_TOKEN_INVALID,
    "GitHub connection expired or was revoked. Reconnect GitHub."⟩

/-- Substring test on character lists (`String.prototype.includes`). -/
def charsContain (pat : List Char) : List Char → Bool
  | [] => pat.isPrefixOf ([] : List Char)
  | c :: rest => pat.isPrefixOf (c :: rest) || charsContain pat rest

/-- `String.prototype.toLowerCase` on one character, restricted to the
ASCII range (the markers and GitHub error bodies are ASCII). -/
def jsToLowerChar (c : Char) : Char :=
  if 'A' ≤ c && c ≤ 'Z' then Char.ofNat (c.toNat + 32) else c

/-- `message.includes(marker)` after `message.toLowerCase()`. -/
def containsMarker (message marker : String) : Bool :=
  charsContain marker.toList (message.toList.map jsToLowerChar)

/-- `isRefreshTokenEndpointInvalidError(error)`: an `ApiError` with code
`GITHUB_AUTH_FAILED` whose lower-cased message mentions a known permanent
rejection marker. -/
def isRefreshTokenEndpointInvalidError (e : AppError) : Bool :=
  match e with
  | AppError.other _ => false
  | AppError.api a =>
    a.code = ErrorCode.GITHUB_AUTH_FAILED
      && ["bad_refresh_token", "invalid_grant", "expired", "revoked"].any
          (fun marker => containsMarker a.message marker)

/-- The refreshed token payload (`parseGitHubAppTokenPayload` output). -/
structure RefreshedTokens where
  accessToken : String
  accessTokenExpiresInSeconds : ℕ
  refreshToken : String
  refreshTokenExpiresInSeconds : ℕ
  deriving DecidableEq, Repr

/-- `getAbsoluteExpiryTimestamp(now, expiresInSeconds)`. -/
def getAbsoluteExpiryTimestamp (now : ℤ) (expiresInSeconds : ℕ) : ℤ :=
  now + (expiresInSeconds : ℤ) * 1000

/-- The outcome of one `getValidGitHubAccessTokenForUserInternal` call. -/
inductive TokenResult where
  | token (t : String)
  | noToken
  | failure (e : AppError)
  deriving DecidableEq, Repr

/-- The call's result together with its external effects: whether the
refresh endpoint was contacted, whether `saveGitHubTokenBundle` ran,
the timestamp passed to `markGitHubAuthInvalid` (if it ran), and how many
times the stored bundle was re-read after the initial load. -/
structure AuthTrace where
  result : TokenResult
  networkCalled : Bool
  savedBundle : Bool
  markedInvalidAt : Option ℤ
  rereadCount : ℕ
  deriving DecidableEq, Repr

/-- `getValidGitHubAccessTokenForUserInternal(env, db, userId,
allowRereadRetry)`.  `bundle` is the initially loaded bundle, `refresh` the
outcome of `refreshGitHubUserAccessToken` (were it attempted), and
`reread`/`rereadNow` the bundle and clock seen by the single re-read inside
the catch block. -/
def getValidGitHubAccessTokenForUserInternal (bundle : Option TokenBundle) (now : ℤ)
    (refresh : Except AppError RefreshedTokens) (reread : Option TokenBundle)
    (rereadNow : ℤ) (allowRereadRetry : Bool) : AuthTrace :=
  match bundle with
  | none => ⟨TokenResult.noToken, false, false, none, 0⟩
  | some b =>
    if hasFreshAccessToken b now then
      ⟨TokenResult.token (b.accessToken.getD ""), false, false, none, 0⟩
    else if isGitHubAuthMarkedInvalid b then
      ⟨TokenResult.failure (AppError.api createGitHubTokenInvalidError), false, false, none, 0⟩
    else if ¬ hasRefreshToken b then
      ⟨TokenResult.noToken, false, false, none, 0⟩
    else
      match refresh with
      | Except.ok refreshed =>
        ⟨TokenResult.token refreshed.accessToken, true, true, none, 0⟩
      | Except.error e =>
        let rereads := if allowRereadRetry then 1 else 0
        let hasRetryToken := allowRereadRetry
          && (match reread with
              | some rb => hasFreshAccessToken rb rereadNow
              | none => false)
        if hasRetryToken then
          ⟨TokenResult.token ((reread.bind (·.accessToken)).getD ""), true, false, none, rereads⟩
        else if isRefreshTokenEndpointInvalidError e then
          ⟨TokenResult.failure (AppError.api createGitHubTokenInvalidError), true, false,
            some now, rereads⟩
        else
          ⟨TokenResult.failure e, true, false, none, rereads⟩

/-- `getValidGitHubAccessTokenForUser`: the exported wrapper, always passing
`allowRereadRetry = true`. -/
def getValidGitHubAccessTokenForUser (bundle : Option TokenBundle) (now : ℤ)
    (refresh : Except AppError RefreshedTokens) (reread : Option TokenBundle)
    (rereadNow : ℤ) : AuthTrace :=
  getValidGitHubAccessTokenForUserInternal bundle now refresh reread rereadNow true

/-- The persisted `users` row restricted to the GitHub token-bundle columns
(`GitHubTokenRow` in github-auth.ts), plus the bookkeeping `updated_at`. -/
structure UserTokenRow where
  accessTokenCiphertext : Option String
  accessTokenIv : Option String
  accessTokenExpiresAt : Option ℤ
  refreshTokenCiphertext : Option String
  refreshTokenIv : Option String
  refreshTokenExpiresAt : Option ℤ
  authInvalidAt : Option ℤ
  githubLogin : Option String
  githubUserId : Option String
  updatedAt : ℤ
  deriving DecidableEq, Repr

/-- `markGitHubAuthInvalid(db, userId, now)`: the row update
`SET github_auth_invalid_at = now, updated_at = now`. -/
def markGitHubAuthInvalid (row : UserTokenRow) (now : ℤ) : UserTokenRow :=
  { row with authInvalidAt := some now, updatedAt := now }

/-! ## Helper lemmas -/

/-- Rounding to two decimals preserves non-negativity. -/
theorem roundRequests_nonneg {q : ℚ} (h : 0 ≤ q) : 0 ≤ roundRequests q := by
  have hfloor : (0 : ℤ) ≤ jsRound (q * 100) := by
    rw [jsRound_eq_floor, Int.le_floor]
    push_cast
    nlinarith
  unfold roundRequests
  exact div_nonneg (by exact_mod_cast hfloor) (by norm_num)

/-- A value more than half a rounding unit below zero rounds negative. -/
theorem roundRequests_neg {q : ℚ} (h : q < -(1/200)) : roundRequests q < 0 := by
  have hfloor : jsRound (q * 100) < 0 := by
    rw [jsRound_eq_floor]
    refine Int.floor_lt.mpr ?_
    push_cast
    nlinarith
  unfold roundRequests
  exact div_neg_of_neg_of_pos (by exact_mod_cast hfloor) (by norm_num)

/-- A structurally valid payload round-trips through `JSON.stringify` /
`JSON.parse` / `parseDataPayload` unchanged. -/
theorem parseDataPayload_encode (p : DataPayload)
    (hdisp : 1 ≤ p.display.length ∧ p.display.length ≤ 64)
    (htitle : 1 ≤ p.title.length ∧ p.title.length ≤ 120)
    (hupd : isIsoTimestamp p.updatedAt = true) :
    parseDataPayload (encodeDataPayload p) = some p := by
  show (if 1 ≤ p.display.length ∧ p.display.length ≤ 64 ∧ 1 ≤ p.title.length
        ∧ p.title.length ≤ 120 ∧ isIsoTimestamp p.updatedAt = true then
      some { dailyTarget := p.dailyTarget, daysRemaining := p.daysRemaining,
             display := p.display, monthRemaining := p.monthRemaining,
             title := p.title, todayAvailable := p.todayAvailable,
             updatedAt := p.updatedAt }
    else none) = some p
  rw [if_pos ⟨hdisp.1, hdisp.2, htitle.1, htitle.2, hupd⟩]

/-! ## Claim theorems -/

/-- C6: a cache entry written at `t` and read at `now` is reported fresh
exactly when `now - t ≤ CACHE_TTL_MS` (TTL inclusive at the boundary); in
particular a read at `t + TTL - 1` is fresh and a read at `t + TTL + 1` is
stale. -/
theorem cache_freshness_boundary (p : DataPayload) (t now : ℤ)
    (ht : 0 < t)
    (hdisp : 1 ≤ p.display.length ∧ p.display.length ≤ 64)
    (htitle : 1 ≤ p.title.length ∧ p.title.length ≤ 120)
    (hupd : isIsoTimestamp p.updatedAt = true) :
    (loadCachedData (some (saveDataCache p t)) now).value
        = some ⟨decide (now - t ≤ CACHE_TTL_MS), p, t⟩
      ∧ ((loadCachedData (some (saveDataCache p t)) (t + CACHE_TTL_MS - 1)).value.map
          CachedData.isFresh) = some true
      ∧ ((loadCachedData (some (saveDataCache p t)) (t + CACHE_TTL_MS + 1)).value.map
          CachedData.isFresh) = some false := by
  have hread : ∀ n : ℤ, (loadCachedData (some (saveDataCache p t)) n).value
      = some ⟨decide (n - t ≤ CACHE_TTL_MS), p, t⟩ := by
    intro n
    simp [loadCachedData, saveDataCache, jsonParse,
      parseDataPayload_encode p hdisp htitle hupd, ht]
  refine ⟨hread now, ?_, ?_⟩
  · rw [hread (t + CACHE_TTL_MS - 1)]
    have : ((t + CACHE_TTL_MS - 1) - t ≤ CACHE_TTL_MS) := by omega
    simp [this]
  · rw [hread (t + CACHE_TTL_MS + 1)]
    have : ¬ ((t + CACHE_TTL_MS + 1) - t ≤ CACHE_TTL_MS) := by omega
    simp [this]

/-- C6 witness: a concrete valid payload written at `t = 1000` and read at
`now = 2000` is fresh, and the two boundary reads behave as claimed. -/
theorem cache_freshness_boundary_witness :
    (0 : ℤ) < 1000
      ∧ ((loadCachedData
            (some (saveDataCache ⟨12, 5, "2/12", 50, "Copilot", 2,
              "2026-01-15T10:00:00.000Z"⟩ 1000)) 2000).value
          = some ⟨decide ((2000 : ℤ) - 1000 ≤ CACHE_TTL_MS),
              ⟨12, 5, "2/12", 50, "Copilot", 2, "2026-01-15T10:00:00.000Z"⟩, 1000⟩
        ∧ ((loadCachedData
              (some (saveDataCache ⟨12, 5, "2/12", 50, "Copilot", 2,
                "2026-01-15T10:00:00.000Z"⟩ 1000)) (1000 + CACHE_TTL_MS - 1)).value.map
            CachedData.isFresh) = some true
        ∧ ((loadCachedData
              (some (saveDataCache ⟨12, 5, "2/12", 50, "Copilot", 2,
                "2026-01-15T10:00:00.000Z"⟩ 1000)) (1000 + CACHE_TTL_MS + 1)).value.map
            CachedData.isFresh) = some false) :=
  ⟨by decide,
    cache_freshness_boundary ⟨12, 5, "2/12", 50, "Copilot", 2, "2026-01-15T10:00:00.000Z"⟩
      1000 2000 (by decide) (by decide) (by decide) (by decide)⟩

/-- C7: a stored cache row with a wrong schema version, a non-positive
timestamp, or a payload that fails JSON parsing or structural validation
reads as null, is deleted as a side effect, and a subsequent read for the
same user also returns null. -/
theorem cache_corruption_self_heals (row : CacheRow) (now now2 : ℤ)
    (hcorrupt : row.payloadVersion ≠ PAYLOAD_VERSION ∨ ¬ 0 < row.updatedAt
      ∨ (jsonParse row.payloadJson).bind parseDataPayload = none) :
    (loadCachedData (some row) now).value = none
      ∧ (loadCachedData (some row) now).store = none
      ∧ (loadCachedData (some row) now).deleted = true
      ∧ loadCachedData (loadCachedData (some row) now).store now2
          = ⟨none, none, false⟩ := by
  have hmain : loadCachedData (some row) now = ⟨none, none, true⟩ := by
    rcases hcorrupt with hv | ht | hp
    · simp [loadCachedData, hv]
    · rcases eq_or_ne row.payloadVersion PAYLOAD_VERSION with he | hne
      · simp [loadCachedData, he, ht]
      · simp [loadCachedData, hne]
    · rcases eq_or_ne row.payloadVersion PAYLOAD_VERSION with he | hne
      · by_cases ht : 0 < row.updatedAt
        · cases hj : jsonParse row.payloadJson with
          | none => simp [loadCachedData, he, ht, hj]
          | some parsed =>
            rw [hj, Option.some_bind] at hp
            simp [loadCachedData, he, ht, hj, hp]
        · simp [loadCachedData, he, ht]
      · simp [loadCachedData, hne]
  rw [hmain]
  exact ⟨rfl, rfl, rfl, rfl⟩

/-- C7 witness: a row stored with schema version 2 self-heals. -/
theorem cache_corruption_self_heals_witness :
    ((2 : ℤ) ≠ PAYLOAD_VERSION ∨ ¬ (0 : ℤ) < 5
        ∨ (jsonParse (StoredText.wellFormed Json.null)).bind parseDataPayload = none)
      ∧ ((loadCachedData (some ⟨StoredText.wellFormed Json.null, 2, 5⟩) 10).value = none
        ∧ (loadCachedData (some ⟨StoredText.wellFormed Json.null, 2, 5⟩) 10).store = none
        ∧ (loadCachedData (some ⟨StoredText.wellFormed Json.null, 2, 5⟩) 10).deleted = true
        ∧ loadCachedData (loadCachedData (some ⟨StoredText.wellFormed Json.null, 2, 5⟩) 10).store 20
            = ⟨none, none, false⟩) :=
  ⟨Or.inl (by decide),
    cache_corruption_self_heals ⟨StoredText.wellFormed Json.null, 2, 5⟩ 10 20
      (Or.inl (by decide))⟩

/-- C1: for every builder input with `daysRemaining ≥ 1` the pre-rounding
daily target equals `max(0, monthlyQuota - max(0, spentThisMonth -
spentToday)) / daysRemaining` exactly, and for `monthlyQuota = 300`,
`spentThisMonth = 250`, `spentToday = 10`, `daysRemaining = 5` the report
carries `dailyTarget = 12`, `todayAvailable = 2` and `display = "2/12"`. -/
theorem dailyTarget_formula_and_example
    (monthlyQuota spentThisMonth spentToday : ℚ) (daysRemaining : ℕ)
    (h : 1 ≤ daysRemaining) :
    dailyTarget monthlyQuota spentThisMonth spentToday daysRemaining
        = specDailyTarget monthlyQuota spentThisMonth spentToday daysRemaining
      ∧ (computeReport 300 250 10 5 "Copilot" "2026-01-15T10:00:00.000Z").dailyTarget = 12
      ∧ (computeReport 300 250 10 5 "Copilot" "2026-01-15T10:00:00.000Z").todayAvailable = 2
      ∧ (computeReport 300 250 10 5 "Copilot" "2026-01-15T10:00:00.000Z").display = "2/12" :=
  ⟨rfl, by decide, by decide, by decide⟩

/-- C1 witness: the formula instantiated at the spec's worked example. -/
theorem dailyTarget_formula_and_example_witness :
    (1 ≤ 5)
      ∧ (dailyTarget 300 250 10 5 = specDailyTarget 300 250 10 5
        ∧ (computeReport 300 250 10 5 "Copilot" "2026-01-15T10:00:00.000Z").dailyTarget = 12
        ∧ (computeReport 300 250 10 5 "Copilot" "2026-01-15T10:00:00.000Z").todayAvailable = 2
        ∧ (computeReport 300 250 10 5 "Copilot" "2026-01-15T10:00:00.000Z").display = "2/12") :=
  ⟨by decide, dailyTarget_formula_and_example 300 250 10 5 (by decide)⟩

/-- C4 counterexample: with non-negative usage totals (`spentThisMonth =
spentToday = 100`) and positive quota 10, the builder's report carries
`todayAvailable = -90 < 0`, refuting the claimed invariant. -/
theorem todayAvailable_nonneg_counterexample :
    (0 : ℚ) ≤ 100 ∧ (0 : ℚ) < 10 ∧ 1 ≤ 1
      ∧ (computeReport 10 100 100 1 "Copilot" "2026-01-15T10:00:00.000Z").todayAvailable = -90
      ∧ ¬ (0 : ℚ) ≤ (computeReport 10 100 100 1 "Copilot" "2026-01-15T10:00:00.000Z").todayAvailable := by
  decide

/-- C4 amended: for non-negative usage totals and positive quota, the
report's `dailyTarget` is non-negative and `daysRemaining` is the given
positive integer; `todayAvailable` is non-negative whenever `spentToday`
does not exceed the pre-rounding daily target (it can be negative
otherwise).  All numeric fields are total rational values (the embedding's
finiteness). -/
theorem report_invariants (monthlyQuota spentThisMonth spentToday : ℚ)
    (daysRemaining : ℕ) (title updatedAt : String)
    (hm : 0 ≤ spentThisMonth) (hd : 0 ≤ spentToday) (hq : 0 < monthlyQuota)
    (hdays : 1 ≤ daysRemaining) :
    0 ≤ (computeReport monthlyQuota spentThisMonth spentToday daysRemaining
          title updatedAt).dailyTarget
      ∧ (computeReport monthlyQuota spentThisMonth spentToday daysRemaining
          title updatedAt).daysRemaining = (daysRemaining : ℚ)
      ∧ (spentToday ≤ dailyTarget monthlyQuota spentThisMonth spentToday daysRemaining →
          0 ≤ (computeReport monthlyQuota spentThisMonth spentToday daysRemaining
            title updatedAt).todayAvailable) := by
  refine ⟨?_, rfl, ?_⟩
  · apply roundRequests_nonneg
    unfold dailyTarget monthRemainingBeforeToday
    positivity
  · intro hle
    apply roundRequests_nonneg
    unfold todayAvailable
    linarith

/-- C4 amended witness: the invariants at the spec's worked example. -/
theorem report_invariants_witness :
    ((0 : ℚ) ≤ 250 ∧ (0 : ℚ) ≤ 10 ∧ (0 : ℚ) < 300 ∧ 1 ≤ 5)
      ∧ (0 ≤ (computeReport 300 250 10 5 "Copilot" "u").dailyTarget
        ∧ (computeReport 300 250 10 5 "Copilot" "u").daysRemaining = ((5 : ℕ) : ℚ)
        ∧ (10 ≤ dailyTarget 300 250 10 5 →
            0 ≤ (computeReport 300 250 10 5 "Copilot" "u").todayAvailable)) :=
  ⟨⟨by decide, by decide, by decide, by decide⟩,
    report_invariants 300 250 10 5 "Copilot" "u" (by decide) (by decide) (by decide) (by decide)⟩

/-- C5 counterexample: with `spentToday = 10.004` exceeding both the
pre-rounding and the rounded `dailyTarget = 10`, the report's
`todayAvailable` is `0`, not negative — rounding erases deficits of at
most half a rounding unit. -/
theorem todayAvailable_negative_counterexample :
    dailyTarget 10 (10 + 1/250) (10 + 1/250) 1 < 10 + 1/250
      ∧ (computeReport 10 (10 + 1/250) (10 + 1/250) 1 "t" "u").dailyTarget < 10 + 1/250
      ∧ (computeReport 10 (10 + 1/250) (10 + 1/250) 1 "t" "u").todayAvailable = 0 := by
  decide

/-- C5 amended: the report's `todayAvailable` is exactly the two-decimal
rounding of `dailyTarget - spentToday`, with no flooring at zero; whenever
`spentToday` exceeds the pre-rounding daily target by more than half a
rounding unit (1/200), the payload carries a strictly negative
`todayAvailable`. -/
theorem todayAvailable_unclamped (monthlyQuota spentThisMonth spentToday : ℚ)
    (daysRemaining : ℕ) (title updatedAt : String)
    (h : dailyTarget monthlyQuota spentThisMonth spentToday daysRemaining + 1/200
      < spentToday) :
    (computeReport monthlyQuota spentThisMonth spentToday daysRemaining
        title updatedAt).todayAvailable
        = roundRequests
            (dailyTarget monthlyQuota spentThisMonth spentToday daysRemaining - spentToday)
      ∧ (computeReport monthlyQuota spentThisMonth spentToday daysRemaining
          title updatedAt).todayAvailable < 0 := by
  refine ⟨rfl, ?_⟩
  apply roundRequests_neg
  unfold todayAvailable
  linarith

/-- C5 amended witness: `spentToday = 100` against a daily target of 10. -/
theorem todayAvailable_unclamped_witness :
    (dailyTarget 10 100 100 1 + 1/200 < 100)
      ∧ ((computeReport 10 100 100 1 "t" "u").todayAvailable
          = roundRequests (dailyTarget 10 100 100 1 - 100)
        ∧ (computeReport 10 100 100 1 "t" "u").todayAvailable < 0) :=
  ⟨by decide, todayAvailable_unclamped 10 100 100 1 "t" "u" (by decide)⟩

/-- C2: when the live computation fails and the cache read found no fresh
entry, `loadData` returns any existing cache entry as a stale fallback and
propagates the original failure unchanged when no entry exists at all. -/
theorem stale_fallback_on_live_failure (cached : Option CachedData)
    (patCiphertext patIv : Option String) (err : AppError)
    (hstale : (match cached with | some c => c.isFresh | none => false) = false)
    (hcreds : hasValidPatCredentials patCiphertext patIv = true) :
    loadData cached patCiphertext patIv (Except.error err)
      = match cached with
        | some c => Except.ok (some ⟨c.payload, DataSource.cache_stale_fallback⟩)
        | none => Except.error err := by
  cases cached with
  | none => simp [loadData, hcreds]
  | some c =>
    simp only at hstale
    simp [loadData, hstale, hcreds]

/-- C2 witness: a stale entry is returned as a fallback on a concrete
failed live computation. -/
theorem stale_fallback_on_live_failure_witness :
    ((match (some ⟨false, ⟨1, 1, "d", 1, "t", 1, "x"⟩, 5⟩ : Option CachedData) with
        | some c => c.isFresh | none => false) = false)
      ∧ hasValidPatCredentials (some "cipher") (some "iv") = true
      ∧ loadData (some ⟨false, ⟨1, 1, "d", 1, "t", 1, "x"⟩, 5⟩) (some "cipher") (some "iv")
          (Except.error (AppError.other "boom"))
        = Except.ok (some ⟨⟨1, 1, "d", 1, "t", 1, "x"⟩, DataSource.cache_stale_fallback⟩) :=
  ⟨by decide, by decide,
    stale_fallback_on_live_failure (some ⟨false, ⟨1, 1, "d", 1, "t", 1, "x"⟩, 5⟩)
      (some "cipher") (some "iv") (AppError.other "boom") (by decide) (by decide)⟩

/-- C3 counterexample: a bundle with `authInvalidAt` set but a still-fresh
access token makes `getValidAccessToken` return the token (with no network
call), not fail with `ReauthRequired` — the freshness check precedes the
`authInvalidAt` check. -/
theorem authInvalid_fresh_token_counterexample :
    isGitHubAuthMarkedInvalid
        ⟨some "tok", some 120000, some 5, none, none, some "r", some 999⟩ = true
      ∧ getValidGitHubAccessTokenForUser
          (some ⟨some "tok", some 120000, some 5, none, none, some "r", some 999⟩) 0
          (Except.error (AppError.other "unused")) none 0
        = ⟨TokenResult.token "tok", false, false, none, 0⟩ := by
  decide

/-- C3 amended: when `authInvalidAt` is set and the stored access token is
not fresh (absent or within the 60s safety margin of expiry),
`getValidAccessToken` fails immediately with `ReauthRequired`, performing
no network call and no storage write, regardless of the refresh and re-read
oracles. -/
theorem authInvalid_rejects_without_network (b : TokenBundle) (now : ℤ)
    (refresh : Except AppError RefreshedTokens) (reread : Option TokenBundle)
    (rereadNow : ℤ)
    (hmarked : isGitHubAuthMarkedInvalid b = true)
    (hnotfresh : hasFreshAccessToken b now = false) :
    getValidGitHubAccessTokenForUser (some b) now refresh reread rereadNow
      = ⟨TokenResult.failure (AppError.api createGitHubTokenInvalidError),
          false, false, none, 0⟩ := by
  simp [getValidGitHubAccessTokenForUser, getValidGitHubAccessTokenForUserInternal,
    hmarked, hnotfresh]

/-- C3 amended witness: after a permanent rejection marked the bundle
invalid (expired access token), the next call fails without a network
call. -/
theorem authInvalid_rejects_without_network_witness :
    isGitHubAuthMarkedInvalid ⟨some "tok", some 0, some 5, none, none, some "r", some 0⟩ = true
      ∧ hasFreshAccessToken ⟨some "tok", some 0, some 5, none, none, some "r", some 0⟩ 100000 = false
      ∧ getValidGitHubAccessTokenForUser
          (some ⟨some "tok", some 0, some 5, none, none, some "r", some 0⟩) 100000
          (Except.error (AppError.other "unused")) none 100000
        = ⟨TokenResult.failure (AppError.api createGitHubTokenInvalidError),
            false, false, none, 0⟩ :=
  ⟨by decide, by decide,
    authInvalid_rejects_without_network
      ⟨some "tok", some 0, some 5, none, none, some "r", some 0⟩ 100000
      (Except.error (AppError.other "unused")) none 100000 (by decide) (by decide)⟩

/-- C8 counterexample: a permanent (`bad_refresh_token`) refresh rejection
whose post-failure re-read shows a concurrently refreshed fresh token makes
`getValidAccessToken` return that token and leave `authInvalidAt` unset,
instead of marking the bundle invalid and failing. -/
theorem permanent_failure_marks_invalid_counterexample :
    isRefreshTokenEndpointInvalidError (AppError.api ⟨502, ErrorCode.GITHUB_AUTH_FAILED,
        "GitHub token endpoint error (400): bad_refresh_token"⟩) = true
      ∧ getValidGitHubAccessTokenForUser
          (some ⟨some "old", some 0, none, none, none, some "r", some 99⟩) 1000000
          (Except.error (AppError.api ⟨502, ErrorCode.GITHUB_AUTH_FAILED,
            "GitHub token endpoint error (400): bad_refresh_token"⟩))
          (some ⟨some "fresh", some 2000000, none, none, none, some "r2", some 99⟩) 1000000
        = ⟨TokenResult.token "fresh", true, false, none, 1⟩ := by
  decide

/-- C8 amended: when a refresh fails for a permanent reason and the single
post-failure re-read does not show a fresh access token,
`getValidAccessToken` marks `authInvalidAt = now` (the timestamp captured
at call start), leaves every other token-bundle column unchanged, and fails
with `ReauthRequired`. -/
theorem permanent_refresh_failure_marks_invalid (b : TokenBundle) (now : ℤ)
    (e : AppError) (reread : Option TokenBundle) (rereadNow : ℤ) (row : UserTokenRow)
    (hnotfresh : hasFreshAccessToken b now = false)
    (hnotmarked : isGitHubAuthMarkedInvalid b = false)
    (href : hasRefreshToken b = true)
    (hperm : isRefreshTokenEndpointInvalidError e = true)
    (hnoretry : (match reread with
      | some rb => hasFreshAccessToken rb rereadNow
      | none => false) = false) :
    getValidGitHubAccessTokenForUser (some b) now (Except.error e) reread rereadNow
        = ⟨TokenResult.failure (AppError.api createGitHubTokenInvalidError),
            true, false, some now, 1⟩
      ∧ (markGitHubAuthInvalid row now).authInvalidAt = some now
      ∧ (markGitHubAuthInvalid row now).accessTokenCiphertext = row.accessTokenCiphertext
      ∧ (markGitHubAuthInvalid row now).accessTokenIv = row.accessTokenIv
      ∧ (markGitHubAuthInvalid row now).accessTokenExpiresAt = row.accessTokenExpiresAt
      ∧ (markGitHubAuthInvalid row now).refreshTokenCiphertext = row.refreshTokenCiphertext
      ∧ (markGitHubAuthInvalid row now).refreshTokenIv = row.refreshTokenIv
      ∧ (markGitHubAuthInvalid row now).refreshTokenExpiresAt = row.refreshTokenExpiresAt
      ∧ (markGitHubAuthInvalid row now).githubLogin = row.githubLogin
      ∧ (markGitHubAuthInvalid row now).githubUserId = row.githubUserId := by
  refine ⟨?_, rfl, rfl, rfl, rfl, rfl, rfl, rfl, rfl, rfl⟩
  cases reread with
  | none =>
    simp [getValidGitHubAccessTokenForUser, getValidGitHubAccessTokenForUserInternal,
      hnotfresh, hnotmarked, href, hperm]
  | some rb =>
    simp only at hnoretry
    simp [getValidGitHubAccessTokenForUser, getValidGitHubAccessTokenForUserInternal,
      hnotfresh, hnotmarked, href, hperm, hnoretry]

/-- C8 amended witness: a concrete permanent rejection with no rescuing
re-read marks the bundle invalid and fails. -/
theorem permanent_refresh_failure_marks_invalid_witness :
    (hasFreshAccessToken ⟨some "old", some 0, none, none, none, some "r", some 99⟩ 1000000 = false
        ∧ isGitHubAuthMarkedInvalid ⟨some "old", some 0, none, none, none, some "r", some 99⟩ = false
        ∧ hasRefreshToken ⟨some "old", some 0, none, none, none, some "r", some 99⟩ = true
        ∧ isRefreshTokenEndpointInvalidError
            (AppError.api ⟨502, ErrorCode.GITHUB_AUTH_FAILED, "bad_refresh_token"⟩) = true)
      ∧ (getValidGitHubAccessTokenForUser
            (some ⟨some "old", some 0, none, none, none, some "r", some 99⟩) 1000000
            (Except.error (AppError.api ⟨502, ErrorCode.GITHUB_AUTH_FAILED, "bad_refresh_token"⟩))
            none 1000000
          = ⟨TokenResult.failure (AppError.api createGitHubTokenInvalidError),
              true, false, some 1000000, 1⟩
        ∧ (markGitHubAuthInvalid ⟨some "ac", some "ai", some 1, some "rc", some "ri", some 2,
            none, some "l", some "u", 7⟩ 1000000).authInvalidAt = some 1000000
        ∧ (markGitHubAuthInvalid ⟨some "ac", some "ai", some 1, some "rc", some "ri", some 2,
            none, some "l", some "u", 7⟩ 1000000).accessTokenCiphertext
            = (⟨some "ac", some "ai", some 1, some "rc", some "ri", some 2,
                none, some "l", some "u", 7⟩ : UserTokenRow).accessTokenCiphertext
        ∧ (markGitHubAuthInvalid ⟨some "ac", some "ai", some 1, some "rc", some "ri", some 2,
            none, some "l", some "u", 7⟩ 1000000).accessTokenIv
            = (⟨some "ac", some "ai", some 1, some "rc", some "ri", some 2,
                none, some "l", some "u", 7⟩ : UserTokenRow).accessTokenIv
        ∧ (markGitHubAuthInvalid ⟨some "ac", some "ai", some 1, some "rc", some "ri", some 2,
            none, some "l", some "u", 7⟩ 1000000).accessTokenExpiresAt
            = (⟨some "ac", some "ai", some 1, some "rc", some "ri", some 2,
                none, some "l", some "u", 7⟩ : UserTokenRow).accessTokenExpiresAt
        ∧ (markGitHubAuthInvalid ⟨some "ac", some "ai", some 1, some "rc", some "ri", some 2,
            none, some "l", some "u", 7⟩ 1000000).refreshTokenCiphertext
            = (⟨some "ac", some "ai", some 1, some "rc", some "ri", some 2,
                none, some "l", some "u", 7⟩ : UserTokenRow).refreshTokenCiphertext
        ∧ (markGitHubAuthInvalid ⟨some "ac", some "ai", some 1, some "rc", some "ri", some 2,
            none, some "l", some "u", 7⟩ 1000000).refreshTokenIv
            = (⟨some "ac", some "ai", some 1, some "rc", some "ri", some 2,
                none, some "l", some "u", 7⟩ : UserTokenRow).refreshTokenIv
        ∧ (markGitHubAuthInvalid ⟨some "ac", some "ai", some 1, some "rc", some "ri", some 2,
            none, some "l", some "u", 7⟩ 1000000).refreshTokenExpiresAt
            = (⟨some "ac", some "ai", some 1, some "rc", some "ri", some 2,
                none, some "l", some "u", 7⟩ : UserTokenRow).refreshTokenExpiresAt
        ∧ (markGitHubAuthInvalid ⟨some "ac", some "ai", some 1, some "rc", some "ri", some 2,
            none, some "l", some "u", 7⟩ 1000000).githubLogin
            = (⟨some "ac", some "ai", some 1, some "rc", some "ri", some 2,
                none, some "l", some "u", 7⟩ : UserTokenRow).githubLogin
        ∧ (markGitHubAuthInvalid ⟨some "ac", some "ai", some 1, some "rc", some "ri", some 2,
            none, some "l", some "u", 7⟩ 1000000).githubUserId
            = (⟨some "ac", some "ai", some 1, some "rc", some "ri", some 2,
                none, some "l", some "u", 7⟩ : UserTokenRow).githubUserId) :=
  ⟨⟨by decide, by decide, by decide, by decide⟩,
    permanent_refresh_failure_marks_invalid
      ⟨some "old", some 0, none, none, none, some "r", some 99⟩ 1000000
      (AppError.api ⟨502, ErrorCode.GITHUB_AUTH_FAILED, "bad_refresh_token"⟩) none 1000000
      ⟨some "ac", some "ai", some 1, some "rc", some "ri", some 2, none, some "l", some "u", 7⟩
      (by decide) (by decide) (by decide) (by decide) (by decide)⟩

/-- C9: on a transient refresh failure the stored bundle is re-read exactly
once and nothing is written; the re-read token is returned when it is
fresh, otherwise the original transient failure propagates. -/
theorem transient_refresh_failure_rereads_once (b : TokenBundle) (now : ℤ)
    (e : AppError) (reread : Option TokenBundle) (rereadNow : ℤ)
    (hnotfresh : hasFreshAccessToken b now = false)
    (hnotmarked : isGitHubAuthMarkedInvalid b = false)
    (href : hasRefreshToken b = true)
    (htrans : isRefreshTokenEndpointInvalidError e = false) :
    (getValidGitHubAccessTokenForUser (some b) now (Except.error e) reread
        rereadNow).rereadCount = 1
      ∧ (getValidGitHubAccessTokenForUser (some b) now (Except.error e) reread
          rereadNow).savedBundle = false
      ∧ (getValidGitHubAccessTokenForUser (some b) now (Except.error e) reread
          rereadNow).markedInvalidAt = none
      ∧ (getValidGitHubAccessTokenForUser (some b) now (Except.error e) reread
          rereadNow).result
        = (match reread with
          | some rb =>
            if hasFreshAccessToken rb rereadNow then TokenResult.token (rb.accessToken.getD "")
            else TokenResult.failure e
          | none => TokenResult.failure e) := by
  cases reread with
  | none =>
    simp [getValidGitHubAccessTokenForUser, getValidGitHubAccessTokenForUserInternal,
      hnotfresh, hnotmarked, href, htrans]
  | some rb =>
    by_cases hf : hasFreshAccessToken rb rereadNow
    · simp [getValidGitHubAccessTokenForUser, getValidGitHubAccessTokenForUserInternal,
        hnotfresh, hnotmarked, href, htrans, hf]
    · simp [getValidGitHubAccessTokenForUser, getValidGitHubAccessTokenForUserInternal,
        hnotfresh, hnotmarked, href, htrans, hf]

/-- C9 witness: a concrete network failure with no rescuing re-read
propagates and leaves the bundle untouched. -/
theorem transient_refresh_failure_rereads_once_witness :
    (hasFreshAccessToken ⟨some "old", some 0, none, none, none, some "r", some 99⟩ 1000000 = false
        ∧ isGitHubAuthMarkedInvalid ⟨some "old", some 0, none, none, none, some "r", some 99⟩ = false
        ∧ hasRefreshToken ⟨some "old", some 0, none, none, none, some "r", some 99⟩ = true
        ∧ isRefreshTokenEndpointInvalidError
            (AppError.api ⟨503, ErrorCode.GITHUB_NETWORK_ERROR, "connect timeout"⟩) = false)
      ∧ ((getValidGitHubAccessTokenForUser
            (some ⟨some "old", some 0, none, none, none, some "r", some 99⟩) 1000000
            (Except.error (AppError.api ⟨503, ErrorCode.GITHUB_NETWORK_ERROR, "connect timeout"⟩))
            none 1000000).rereadCount = 1
        ∧ (getValidGitHubAccessTokenForUser
            (some ⟨some "old", some 0, none, none, none, some "r", some 99⟩) 1000000
            (Except.error (AppError.api ⟨503, ErrorCode.GITHUB_NETWORK_ERROR, "connect timeout"⟩))
            none 1000000).savedBundle = false
        ∧ (getValidGitHubAccessTokenForUser
            (some ⟨some "old", some 0, none, none, none, some "r", some 99⟩) 1000000
            (Except.error (AppError.api ⟨503, ErrorCode.GITHUB_NETWORK_ERROR, "connect timeout"⟩))
            none 1000000).markedInvalidAt = none
        ∧ (getValidGitHubAccessTokenForUser
            (some ⟨some "old", some 0, none, none, none, some "r", some 99⟩) 1000000
            (Except.error (AppError.api ⟨503, ErrorCode.GITHUB_NETWORK_ERROR, "connect timeout"⟩))
            none 1000000).result
          = TokenResult.failure
              (AppError.api ⟨503, ErrorCode.GITHUB_NETWORK_ERROR, "connect timeout"⟩)) :=
  ⟨⟨by decide, by decide, by decide, by decide⟩,
    transient_refresh_failure_rereads_once
      ⟨some "old", some 0, none, none, none, some "r", some 99⟩ 1000000
      (AppError.api ⟨503, ErrorCode.GITHUB_NETWORK_ERROR, "connect timeout"⟩) none 1000000
      (by decide) (by decide) (by decide) (by decide)⟩

/-- C10: the post-failure re-read happens for every refresh failure, not
only transient ones: whenever the re-read bundle holds a fresh access
token, that token is returned and `authInvalidAt` is not set — for any
failing refresh outcome `e`, permanent ones included. -/
theorem reread_rescues_any_refresh_failure (b : TokenBundle) (now : ℤ)
    (e : AppError) (rb : TokenBundle) (rereadNow : ℤ)
    (hnotfresh : hasFreshAccessToken b now = false)
    (hnotmarked : isGitHubAuthMarkedInvalid b = false)
    (href : hasRefreshToken b = true)
    (hfresh : hasFreshAccessToken rb rereadNow = true) :
    getValidGitHubAccessTokenForUser (some b) now (Except.error e) (some rb) rereadNow
      = ⟨TokenResult.token (rb.accessToken.getD ""), true, false, none, 1⟩ := by
  simp [getValidGitHubAccessTokenForUser, getValidGitHubAccessTokenForUserInternal,
    hnotfresh, hnotmarked, href, hfresh]

/-- C10 witness: a permanent rejection rescued by a fresh re-read token. -/
theorem reread_rescues_any_refresh_failure_witness :
    (hasFreshAccessToken ⟨some "old", some 0, none, none, none, some "r", some 99⟩ 1000000 = false
        ∧ isGitHubAuthMarkedInvalid ⟨some "old", some 0, none, none, none, some "r", some 99⟩ = false
        ∧ hasRefreshToken ⟨some "old", some 0, none, none, none, some "r", some 99⟩ = true
        ∧ hasFreshAccessToken ⟨some "fresh", some 2000000, none, none, none, some "r2", some 99⟩
            1000000 = true)
      ∧ getValidGitHubAccessTokenForUser
          (some ⟨some "old", some 0, none, none, none, some "r", some 99⟩) 1000000
          (Except.error (AppError.api ⟨502, ErrorCode.GITHUB_AUTH_FAILED, "invalid_grant"⟩))
          (some ⟨some "fresh", some 2000000, none, none, none, some "r2", some 99⟩) 1000000
        = ⟨TokenResult.token
            ((⟨some "fresh", some 2000000, none, none, none, some "r2", some 99⟩ :
              TokenBundle).accessToken.getD ""), true, false, none, 1⟩ :=
  ⟨⟨by decide, by decide, by decide, by decide⟩,
    reread_rescues_any_refresh_failure
      ⟨some "old", some 0, none, none, none, some "r", some 99⟩ 1000000
      (AppError.api ⟨502, ErrorCode.GITHUB_AUTH_FAILED, "invalid_grant"⟩)
      ⟨some "fresh", some 2000000, none, none, none, some "r2", some 99⟩ 1000000
      (by decide) (by decide) (by decide) (by decide)⟩

end RequestsCounter
